import Mathlib

/-!
Shallow embedding of `run_page/gpxtrackposter/track.py` (the Track entity:
format parsers, moving statistics, merge, cache codec, bounding box).

Conventions of the embedding:
* Python floats and `datetime`/`timedelta` values are modelled as exact
  rationals; a `datetime` is its POSIX timestamp in seconds (a `ℚ`, so
  sub-second precision is representable), a `timedelta` is its length in
  seconds.
* Fallible Python statements are modelled with `Except`; where the caught
  state matters (the object keeps the mutations performed before the
  raising statement) the error value carries the partially mutated record.
* Attributes that `__init__` leaves unset or `None` are `Option` fields.
* External collaborators that are not part of this module
  (`parse_datetime_to_local`, `polyline_processor.filter_out`,
  `polyline.decode`) are taken as function parameters of the operations
  that call them.
-/

set_option autoImplicit false

namespace RunPage

/-- A Python `datetime`, as its POSIX timestamp in seconds. -/
abbrev DT := ℚ

/-- The exceptions that can arise in the modelled code paths. -/
inductive PyError where
  | trackLoadError (msg : String)
  | keyError
  | attributeError
  | indexError
  | typeError
  | zeroDivisionError
  | nameError
  | valueError
  | libraryError
  deriving DecidableEq, Repr

/-- `str(e)` for the modelled exceptions (for a `TrackLoadError` this is its
message; for the builtin exceptions an identifying tag). -/
def pyErrStr : PyError → String
  | PyError.trackLoadError m => m
  | PyError.keyError => "KeyError"
  | PyError.attributeError => "AttributeError"
  | PyError.indexError => "IndexError"
  | PyError.typeError => "TypeError"
  | PyError.zeroDivisionError => "ZeroDivisionError"
  | PyError.nameError => "NameError"
  | PyError.valueError => "ValueError"
  | PyError.libraryError => "LibraryParseError"

/-- `s2.LatLng`, carried by its degree coordinates. -/
structure LatLng where
  lat : ℚ
  lng : ℚ
  deriving DecidableEq, Repr

/-- `self.moving_dict`: a Python dict whose keys are populated together by
the GPX/FIT paths.  Each field is `none` when its key is absent (a fresh
track has the empty dict `{}`).  `average_speed` may hold Python `None`
(the FIT path can store `None`), hence the doubled `Option`. -/
structure MovingDict where
  distance : Option ℚ := none
  moving_time : Option ℚ := none
  elapsed_time : Option ℚ := none
  average_speed : Option (Option ℚ) := none
  deriving DecidableEq, Repr

/-- The `Track` object.  Field defaults are the `__init__` assignments.
`polyline_container` is not assigned in `__init__` at all (only the GPX and
FIT loaders create it), so it is an `Option` whose `none` means "attribute
missing" (touching it then raises `AttributeError`).  `start_latlng` is
initialised to the empty list, which no reader distinguishes from an unset
start point, so it is `none` until a loader stores a `start_point`.
`run_id` is `Option` because the xingzhe branch can store `None`. -/
structure Track where
  file_names : List String := []
  polylines : List (List LatLng) := []
  polyline_str : List ℤ := []
  start_time : Option DT := none
  end_time : Option DT := none
  start_time_local : Option DT := none
  end_time_local : Option DT := none
  length : ℚ := 0
  special : Bool := false
  average_heartrate : Option ℚ := none
  moving_dict : MovingDict := {}
  run_id : Option ℤ := some 0
  start_latlng : Option (ℚ × ℚ) := none
  type : String := ""
  source : String := ""
  name : String := ""
  polyline_container : Option (List (ℚ × ℚ)) := none
  deriving DecidableEq, Repr

/-- Python `int(...)` on a rational: truncation toward zero. -/
def ratToInt (q : ℚ) : ℤ := if 0 ≤ q then ⌊q⌋ else ⌈q⌉

/-- One output character (as its code) per 5-bit chunk of the zigzagged
value, standard Google polyline encoding.  Structural recursion on a fuel
argument so the definition evaluates in the kernel; `fuel = n` always
suffices because the value shrinks by a factor of 32 each step. -/
def encodeUnsignedGo : ℕ → ℕ → List ℤ
  | 0, n => [(n : ℤ) + 63]
  | fuel + 1, n =>
    if n < 32 then [(n : ℤ) + 63]
    else (((n % 32 : ℕ) : ℤ) + 95) :: encodeUnsignedGo fuel (n / 32)

/-- Chunk encoding of a nonnegative value. -/
def encodeUnsigned (n : ℕ) : List ℤ := encodeUnsignedGo n n

/-- Zigzag (shift left one, bitwise invert when negative) then chunk. -/
def encodeNumber (v : ℤ) : List ℤ :=
  encodeUnsigned (if v < 0 then (-(2 * v) - 1).toNat else (2 * v).toNat)

/-- Coordinates are scaled to 5 decimals and rounded to the nearest
integer before delta encoding. -/
def polylineRound (q : ℚ) : ℤ := round (q * 100000)

/-- Delta encoding over the scaled coordinates. -/
def polylineEncodeGo : ℤ × ℤ → List (ℚ × ℚ) → List ℤ
  | _, [] => []
  | (plat, plng), c :: rest =>
    let lat := polylineRound c.1
    let lng := polylineRound c.2
    encodeNumber (lat - plat) ++ encodeNumber (lng - plng) ++
      polylineEncodeGo (lat, lng) rest

/-- `polyline.encode(coords)`, as the list of character codes of the
encoded string. -/
def polylineEncode (coords : List (ℚ × ℚ)) : List ℤ :=
  polylineEncodeGo (0, 0) coords

/-- The `try:` block of `Track.append` (everything after the two
unconditional assignments).  The statements run in order; the first
failing statement aborts to the handler with the object in its
partially-mutated state, which the error value carries.  Failure modes:
a missing `moving_dict` key (`KeyError`), a missing `polyline_container`
attribute (`AttributeError`), and a zero summed moving time
(`ZeroDivisionError` in the average-speed division). -/
def Track.appendTry (self other : Track) : Except Track Track :=
  match self.moving_dict.distance, other.moving_dict.distance with
  | some sd, some od =>
    let self1 := { self with moving_dict.distance := some (sd + od) }
    match self1.moving_dict.moving_time, other.moving_dict.moving_time with
    | some smt, some omt =>
      let self2 := { self1 with moving_dict.moving_time := some (smt + omt) }
      match self2.moving_dict.elapsed_time, other.moving_dict.elapsed_time with
      | some st, some ot =>
        let self3 := { self2 with moving_dict.elapsed_time := some (st + ot) }
        match self3.polyline_container, other.polyline_container with
        | some spc, some opc =>
          let self4 := { self3 with polyline_container := some (spc ++ opc) }
          let self5 := { self4 with polyline_str := polylineEncode (spc ++ opc) }
          if smt + omt = 0 then Except.error self5
          else
            let self6 := { self5 with
              moving_dict.average_speed := some (some ((sd + od) / (smt + omt))) }
            let self7 := { self6 with file_names := self6.file_names ++ other.file_names }
            Except.ok { self7 with special := self7.special || other.special }
        | _, _ => Except.error self3
      | _, _ => Except.error self2
    | _, _ => Except.error self1
  | _, _ => Except.error self

/-- `Track.append(self, other)`.  `end_time` and `length` are updated
before the `try:` block; the handler only prints a warning, so the caller
always gets back the object in whatever state the block reached. -/
def Track.append (self other : Track) : Track :=
  let self := { self with end_time := other.end_time }
  let self := { self with length := self.length + other.length }
  match Track.appendTry self other with
  | Except.ok t => t
  | Except.error t => t

/-- One `{lat: ..., lng: ...}` entry of the cache document. -/
structure CacheLatLng where
  lat : ℚ
  lng : ℚ
  deriving DecidableEq, Repr

/-- The JSON document written by `store_cache`.  The four timestamps are
formatted with `"%Y-%m-%d %H:%M:%S"`, i.e. whole seconds (`endT` models
the `"end"` key). -/
structure CacheData where
  start : ℤ
  endT : ℤ
  start_local : ℤ
  end_local : ℤ
  length : ℚ
  segments : List (List CacheLatLng)
  deriving DecidableEq, Repr

/-- `Track.store_cache`: serialise the track to the cache document
(directory creation and the file write itself are I/O without data
content).  `None.strftime(...)` raises `AttributeError` when any of the
four datetime fields is unpopulated.  `strftime("%Y-%m-%d %H:%M:%S")`
keeps whole seconds, i.e. the floor of the timestamp (a `datetime` holds a
nonnegative sub-second microsecond field). -/
def Track.store_cache (self : Track) : Except PyError CacheData :=
  match self.start_time, self.end_time, self.start_time_local, self.end_time_local with
  | some s, some e, some sl, some el =>
    Except.ok
      { start := ⌊s⌋
        endT := ⌊e⌋
        start_local := ⌊sl⌋
        end_local := ⌊el⌋
        length := self.length
        segments := self.polylines.map fun line =>
          line.map fun p => CacheLatLng.mk p.lat p.lng }
  | _, _, _, _ => Except.error PyError.attributeError

/-- `Track.load_cache` on a well-formed cache document: `strptime` the
four timestamps, `float(...)` the length, rebuild each segment with
`s2.LatLng.from_degrees(float(lat), float(lng))` (an exact round trip on
the degree values).  The `try/except` wrapper only matters for malformed
documents, which a `CacheData` value cannot represent. -/
def Track.load_cache (self : Track) (data : CacheData) : Track :=
  { self with
    start_time := some (data.start : ℚ)
    end_time := some (data.endT : ℚ)
    start_time_local := some (data.start_local : ℚ)
    end_time_local := some (data.end_local : ℚ)
    length := data.length
    polylines := data.segments.map fun line =>
      line.map fun d => LatLng.mk d.lat d.lng }

/-- Python truthiness of an optional string (`None` and `""` are falsy). -/
def truthyS : Option String → Bool
  | none => false
  | some s => s ≠ ""

/-- Python truthiness of an optional number (`None` and `0` are falsy). -/
def truthyQ : Option ℚ → Bool
  | none => false
  | some v => decide (v ≠ 0)

/-- A `gpxpy` track point: coordinates in degrees plus the parsed
heart-rate extension sample when one is present
(`int(p.extensions[0].getchildren()[0].text)`). -/
structure GpxPoint where
  latitude : ℚ
  longitude : ℚ
  hr : Option ℤ := none
  deriving DecidableEq, Repr

/-- A `gpxpy` track segment. -/
structure GpxSegment where
  points : List GpxPoint := []
  deriving DecidableEq, Repr

/-- A `gpxpy` track: per-track metadata and its segments. -/
structure GpxTrack where
  type : Option String := none
  source : Option String := none
  name : Option String := none
  number : Option ℤ := none
  segments : List GpxSegment := []
  deriving DecidableEq, Repr

/-- The result of `gpx.get_moving_data()` (the external motion-detection
routine), in meters and seconds. -/
structure MovingData where
  moving_distance : ℚ
  moving_time : ℚ
  stopped_time : ℚ
  deriving DecidableEq, Repr

/-- A parsed `gpxpy` document.  `time_bounds` is `gpx.get_time_bounds()`,
`length_2d` is `gpx.length_2d()`, and `moving_data` is `none` when
`gpx.get_moving_data()` returns `None` (reading `.moving_distance` off it
then raises `AttributeError`).  `gpx.simplify()` mutates only the segment
point lists in place, so the segment lists of a `Gpx` value denote the
post-simplification points. -/
structure Gpx where
  creator : Option String := none
  name : Option String := none
  tracks : List GpxTrack := []
  time_bounds : Option DT × Option DT := (none, none)
  length_2d : ℚ := 0
  moving_data : Option MovingData := none
  deriving DecidableEq, Repr

/-- `Track._get_moving_data(gpx)`: package the motion-detection result as
the moving dict.  `average_speed` is `distance / moving_time` when the
moving time is truthy (nonzero) and `0` otherwise. -/
def Track.getMovingData (gpx : Gpx) : Except PyError MovingDict :=
  match gpx.moving_data with
  | none => Except.error PyError.attributeError
  | some md =>
    Except.ok
      { distance := some md.moving_distance
        moving_time := some md.moving_time
        elapsed_time := some (md.moving_time + md.stopped_time)
        average_speed := some (some
          (if md.moving_time ≠ 0 then md.moving_distance / md.moving_time else 0)) }

/-- `Track._load_gpx_data(gpx)`, with the external
`parse_datetime_to_local` collaborator passed as `localize` (its
location-hint argument, the `gpx` object itself, does not feed back into
this module and is dropped from the abstraction).  Errors carry the
partially mutated track, which is the state the `load_gpx` handler leaves
behind.  `int(datetime.datetime.timestamp(start) * 1000)` is the
millisecond timestamp; `s` already denotes the POSIX timestamp. -/
def Track.loadGpxData (localize : Option DT → Option DT → Option DT × Option DT)
    (self : Track) (gpx : Gpx) : Except (Track × PyError) Track :=
  let self := { self with start_time := gpx.time_bounds.1, end_time := gpx.time_bounds.2 }
  match self.start_time with
  | none => Except.error (self, PyError.typeError)
  | some s =>
  let self := { self with run_id := some (ratToInt (s * 1000)) }
  let localTimes := localize self.start_time self.end_time
  let self := { self with start_time_local := localTimes.1, end_time_local := localTimes.2 }
  match self.start_time with
  | none => Except.error (self, PyError.trackLoadError "Track has no start time.")
  | some _ =>
  match self.end_time with
  | none => Except.error (self, PyError.trackLoadError "Track has no end time.")
  | some _ =>
  let self := { self with length := gpx.length_2d }
  if self.length = 0 then Except.error (self, PyError.trackLoadError "Track is empty.")
  else
  match gpx.tracks with
  | [] => Except.error (self, PyError.indexError)
  | t0 :: _ =>
  let self := { self with type := if truthyS t0.type then t0.type.getD "" else self.type }
  let newSource :=
    if truthyS gpx.creator then gpx.creator.getD ""
    else if truthyS t0.source then t0.source.getD ""
    else self.source
  let self := { self with source := newSource }
  let self :=
    { self with
      start_time_local :=
        if self.source = "xingzhe" then self.start_time else self.start_time_local
      run_id := if self.source = "xingzhe" then t0.number else self.run_id }
  let newName :=
    if truthyS gpx.name then gpx.name.getD ""
    else if truthyS t0.name then t0.name.getD ""
    else self.type ++ " from " ++ self.source
  let self := { self with name := newName }
  let segs := gpx.tracks.flatMap fun t => t.segments
  let hrs : List ℤ := segs.flatMap fun sg => sg.points.filterMap fun p => p.hr
  let newLines := segs.map (fun sg => sg.points.map (fun p => LatLng.mk p.latitude p.longitude))
  let self := { self with polylines := self.polylines ++ newLines }
  let pc := segs.flatMap fun sg => sg.points.map fun p => (p.latitude, p.longitude)
  let self :=
    { self with polyline_container := if segs.isEmpty then self.polyline_container else some pc }
  let self :=
    { self with start_latlng :=
        match pc.head? with
        | some p => some p
        | none => self.start_latlng }
  let self := { self with polyline_str := polylineEncode pc }
  let self := { self with average_heartrate :=
    if hrs.isEmpty then none else some ((hrs.map fun z => (z : ℚ)).sum / hrs.length) }
  match Track.getMovingData gpx with
  | Except.error e => Except.error (self, e)
  | Except.ok md => Except.ok { self with moving_dict := md }

/-- `os.path.basename`. -/
def basename (p : String) : String := (p.splitOn "/").getLastD p

/-- Whether an `Except` holds a success value. -/
def isOkE {ε α : Type} : Except ε α → Bool
  | Except.ok _ => true
  | Except.error _ => false

/-- The warning printed by the `load_gpx`/`load_tcx`/`load_fit` handlers
(`fmt` is the format tag in the message, `name` is `self.file_names[0]`). -/
def loadErrMsg (fmt name : String) : String :=
  "Something went wrong when loading " ++ fmt ++ ". for file " ++ name ++
    ", we just ignore this file and continue"

/-- A GPX file on disk: its path, its byte size, and the result of
`mod_gpxpy.parse` on its contents (`none` when the library raises). -/
structure GpxInput where
  path : String
  size : ℕ
  parsed : Option Gpx
  deriving Repr

/-- The `try:` block of `Track.load_gpx`: set `file_names`, raise for a
zero-size file before any parsing, otherwise parse and load.  The error
carries the object state at the raise. -/
def Track.load_gpx_inner (localize : Option DT → Option DT → Option DT × Option DT)
    (self : Track) (f : GpxInput) : Except (Track × PyError) Track :=
  let self := { self with file_names := [basename f.path] }
  if f.size = 0 then Except.error (self, PyError.trackLoadError "Empty GPX file")
  else
    match f.parsed with
    | none => Except.error (self, PyError.libraryError)
    | some gpx => Track.loadGpxData localize self gpx

/-- `Track.load_gpx`: every exception from the block is caught; the
handler prints the warning naming `self.file_names[0]` and `str(e)` and
returns normally.  The `Except` wrapper is the caller-visible exception
channel of the Python call: the blanket `except Exception` means it is
always `ok`. -/
def Track.load_gpx (localize : Option DT → Option DT → Option DT × Option DT)
    (self : Track) (f : GpxInput) : Except PyError (Track × List String) :=
  Except.ok
    (match Track.load_gpx_inner localize self f with
     | Except.ok t => (t, [])
     | Except.error (t, e) => (t, [loadErrMsg "GPX" (basename f.path), pyErrStr e]))

/-- A TCX file on disk.  No parse result is carried: `load_tcx` never
reaches `tcx.read` (see `Track.load_tcx_inner`). -/
structure TcxInput where
  path : String
  size : ℕ
  deriving DecidableEq, Repr

/-- The `try:` block of `Track.load_tcx`.  `TCXReader()` is plain
construction.  After the size check the statement
`self._load_tcx_data(tcx.read(file_name), ...)` evaluates the attribute
`self._load_tcx_data` before its arguments, and no `_load_tcx_data`
method is defined on `Track` in this module, so the lookup raises
`AttributeError` before `tcx.read` runs. -/
def Track.load_tcx_inner (self : Track) (f : TcxInput) : Except (Track × PyError) Track :=
  let self := { self with file_names := [basename f.path] }
  if f.size = 0 then Except.error (self, PyError.trackLoadError "Empty TCX file")
  else Except.error (self, PyError.attributeError)

/-- `Track.load_tcx`: catch-all handler, same shape as `load_gpx`. -/
def Track.load_tcx (self : Track) (f : TcxInput) : Except PyError (Track × List String) :=
  Except.ok
    (match Track.load_tcx_inner self f with
     | Except.ok t => (t, [])
     | Except.error (t, e) => (t, [loadErrMsg "TCX" (basename f.path), pyErrStr e]))

/-- A `fit_tool` `RecordMessage`: the two position fields in degrees,
`none` when the field is absent from the message. -/
structure RecordMsg where
  position_lat : Option ℚ := none
  position_long : Option ℚ := none
  deriving DecidableEq, Repr

/-- A `fit_tool` `SessionMessage`.  `start_time` is the epoch offset in
milliseconds.  Fields the code reads without a `None` guard
(`start_time`, `total_elapsed_time`, `total_distance`, `sport`) are plain;
the ones it guards with truthiness tests are `Option`. -/
structure SessionMsg where
  start_time : ℤ
  total_elapsed_time : ℚ
  total_distance : ℚ
  avg_heart_rate : Option ℚ := none
  sport : ℕ := 0
  total_moving_time : Option ℚ := none
  total_timer_time : Option ℚ := none
  enhanced_avg_speed : Option ℚ := none
  avg_speed : Option ℚ := none
  deriving DecidableEq, Repr

/-- A typed FIT record, dispatched by `isinstance` (file-id, device-info,
activity, software and other message kinds fall through untouched). -/
inductive FitMessage where
  | record (m : RecordMsg)
  | session (m : SessionMsg)
  | other
  deriving Repr

/-- `Sport(message.sport).name.lower()`.  The `Sport` profile enum is
large; the table is truncated to common codes, and any code outside it
models the `ValueError` the enum constructor raises for an undefined
value. -/
def sportTypeName (n : ℕ) : Except PyError String :=
  if n = 0 then Except.ok "generic"
  else if n = 1 then Except.ok "running"
  else if n = 2 then Except.ok "cycling"
  else if n = 5 then Except.ok "swimming"
  else if n = 11 then Except.ok "walking"
  else Except.error PyError.valueError

/-- The `RecordMessage` arm of the `_load_fit_data` loop: append the
coordinate to the local `_polylines` list and to
`self.polyline_container` when `message.position_lat and
message.position_long` is truthy (both fields present *and* nonzero),
otherwise leave everything unchanged.  `polyline_container` is set to the
empty list just before the loop, so `getD []` never applies its
default. -/
def fitRecordStep (pl : List LatLng) (self : Track) (m : RecordMsg) :
    List LatLng × Track :=
  if truthyQ m.position_lat && truthyQ m.position_long then
    let lat := m.position_lat.getD 0
    let lng := m.position_long.getD 0
    let pc := some ((self.polyline_container.getD []) ++ [(lat, lng)])
    (pl ++ [LatLng.mk lat lng], { self with polyline_container := pc })
  else (pl, self)

/-- The `SessionMessage` arm of the `_load_fit_data` loop, statement by
statement.  `timedelta(seconds=None)` (both moving-time candidates
absent) raises `TypeError`; an undefined sport code raises `ValueError`;
either error leaves the earlier field assignments on the object, which
the error value carries. -/
def Track.loadFitSession (self : Track) (m : SessionMsg) : Except (Track × PyError) Track :=
  let self := { self with start_time := some ((m.start_time : ℚ) / 1000) }
  let self := { self with run_id := some m.start_time }
  let endT : Option DT := some (((m.start_time : ℚ) + m.total_elapsed_time * 1000) / 1000)
  let self := { self with end_time := endT }
  let self := { self with length := m.total_distance }
  let self := { self with average_heartrate :=
    if m.avg_heart_rate ≠ some 0 then m.avg_heart_rate else none }
  match sportTypeName m.sport with
  | Except.error e => Except.error (self, e)
  | Except.ok ty =>
  let self := { self with type := ty }
  let self := { self with moving_dict.distance := some m.total_distance }
  match (if truthyQ m.total_moving_time then m.total_moving_time else m.total_timer_time) with
  | none => Except.error (self, PyError.typeError)
  | some mt =>
  let self := { self with moving_dict.moving_time := some mt }
  let self := { self with moving_dict.elapsed_time := some m.total_elapsed_time }
  let avgSpeed := if truthyQ m.enhanced_avg_speed then m.enhanced_avg_speed else m.avg_speed
  Except.ok { self with moving_dict.average_speed := some avgSpeed }

/-- The `for record in fit.records` loop, threading the local
`_polylines` accumulator and the track object. -/
def fitFold (pl : List LatLng) (self : Track) :
    List FitMessage → Except (Track × PyError) (List LatLng × Track)
  | [] => Except.ok (pl, self)
  | FitMessage.record m :: rest =>
    let st := fitRecordStep pl self m
    fitFold st.1 st.2 rest
  | FitMessage.session m :: rest =>
    (match Track.loadFitSession self m with
     | Except.ok t => fitFold pl t rest
     | Except.error e => Except.error e)
  | FitMessage.other :: rest => fitFold pl self rest

/-- `Track._load_fit_data(fit)`.  After the loop,
`self.polyline_container[0]` raises `IndexError` when no position was
recorded; otherwise the injected localization runs (its coordinate hint
does not feed back into this module), the start point and the single
segment are stored, and the container is polyline-encoded. -/
def Track.loadFitData (localize : Option DT → Option DT → Option DT × Option DT)
    (self : Track) (msgs : List FitMessage) : Except (Track × PyError) Track :=
  let self := { self with polyline_container := some [] }
  match fitFold [] self msgs with
  | Except.error e => Except.error e
  | Except.ok (pl, self) =>
    match (self.polyline_container.getD []).head? with
    | none => Except.error (self, PyError.indexError)
    | some hint =>
      let localTimes := localize self.start_time self.end_time
      let self := { self with start_time_local := localTimes.1, end_time_local := localTimes.2 }
      let self := { self with start_latlng := some hint }
      let self := { self with polylines := self.polylines ++ [pl] }
      Except.ok { self with polyline_str := polylineEncode (self.polyline_container.getD []) }

/-- A FIT file on disk: path, byte size, and the message list produced by
`FitFile.from_file` (`none` when the library raises). -/
structure FitInput where
  path : String
  size : ℕ
  parsed : Option (List FitMessage)
  deriving Repr

/-- The `try:` block of `Track.load_fit`. -/
def Track.load_fit_inner (localize : Option DT → Option DT → Option DT × Option DT)
    (self : Track) (f : FitInput) : Except (Track × PyError) Track :=
  let self := { self with file_names := [basename f.path] }
  if f.size = 0 then Except.error (self, PyError.trackLoadError "Empty FIT file")
  else
    match f.parsed with
    | none => Except.error (self, PyError.libraryError)
    | some msgs => Track.loadFitData localize self msgs

/-- `Track.load_fit`: catch-all handler, same shape as `load_gpx`. -/
def Track.load_fit (localize : Option DT → Option DT → Option DT × Option DT)
    (self : Track) (f : FitInput) : Except PyError (Track × List String) :=
  Except.ok
    (match Track.load_fit_inner localize self f with
     | Except.ok t => (t, [])
     | Except.error (t, e) => (t, [loadErrMsg "FIT" (basename f.path), pyErrStr e]))

/-- A remote-activity record as stored in the database
(`start_date_local` is already the parsed `"%Y-%m-%d %H:%M:%S"`
timestamp; `elapsed_time` is a duration in seconds). -/
structure Activity where
  run_id : ℤ
  start_date_local : DT
  elapsed_time : ℚ
  distance : ℚ
  summary_polyline : String
  deriving DecidableEq, Repr

/-- `Track.load_from_db(activity)`.  `ignoreBeforeSaving` is the
truthiness of the module-level
`IGNORE_BEFORE_SAVING = os.getenv("IGNORE_BEFORE_SAVING", False)`;
`filter_out` (from `polyline_processor`) and `polyline.decode` are the
external collaborators.  When the toggle is truthy the
`summary_polyline = filter_out(...)` assignment is skipped, so the local
name `summary_polyline` is unbound at the decode line and Python raises
`NameError` (an `UnboundLocalError`). -/
def Track.load_from_db (ignoreBeforeSaving : Bool)
    (filter_out : String → String) (decode : String → List (ℚ × ℚ))
    (self : Track) (a : Activity) : Except PyError Track :=
  let self := { self with file_names := [toString a.run_id] }
  let self := { self with start_time_local := some a.start_date_local }
  let self := { self with end_time := some (a.start_date_local + a.elapsed_time) }
  let self := { self with length := a.distance }
  match (if ignoreBeforeSaving then none else some (filter_out a.summary_polyline)) with
  | none => Except.error PyError.nameError
  | some sp =>
    let polylineData : List (ℚ × ℚ) := if sp ≠ "" then decode sp else []
    let self := { self with polylines := [polylineData.map (fun (p : ℚ × ℚ) => LatLng.mk p.1 p.2)] }
    Except.ok { self with run_id := some a.run_id }

/-- An `s2sphere` `R1Interval` (the latitude interval of a rectangle),
in degrees.  `lo > hi` is the empty interval; the canonical empty value
is `⟨1, 0⟩`. -/
structure R1Interval where
  lo : ℚ
  hi : ℚ
  deriving DecidableEq, Repr

/-- The canonical empty latitude interval. -/
def R1Interval.emptyI : R1Interval := ⟨1, 0⟩

/-- `R1Interval.from_point`. -/
def R1Interval.fromPoint (p : ℚ) : R1Interval := ⟨p, p⟩

/-- `R1Interval.union`: drop an empty side, otherwise hull. -/
def R1Interval.union (x y : R1Interval) : R1Interval :=
  if x.lo > x.hi then y
  else if y.lo > y.hi then x
  else ⟨min x.lo y.lo, max x.hi y.hi⟩

/-- An `s2sphere` `S1Interval` (the longitude interval of a rectangle),
in degrees in `[-180, 180]`.  `lo > hi` is an inverted (wrapping)
interval; `⟨180, -180⟩` is the empty interval and `⟨-180, 180⟩` the full
circle. -/
structure S1Interval where
  lo : ℚ
  hi : ℚ
  deriving DecidableEq, Repr

/-- The canonical empty longitude interval. -/
def S1Interval.emptyI : S1Interval := ⟨180, -180⟩

/-- The full circle. -/
def S1Interval.full : S1Interval := ⟨-180, 180⟩

/-- `S1Interval.from_point`: `-180` is folded to `180` first. -/
def S1Interval.fromPoint (p : ℚ) : S1Interval :=
  let q := if p = -180 then 180 else p
  ⟨q, q⟩

/-- `S1Interval.fast_contains(p)`: membership without endpoint
normalization (an inverted interval wraps; the empty interval contains
nothing). -/
def S1Interval.fastContains (i : S1Interval) (p : ℚ) : Prop :=
  if i.lo > i.hi then (p ≥ i.lo ∨ p ≤ i.hi) ∧ ¬(i.lo - i.hi = 360)
  else i.lo ≤ p ∧ p ≤ i.hi

instance (i : S1Interval) (p : ℚ) : Decidable (S1Interval.fastContains i p) :=
  if h : i.lo > i.hi then
    decidable_of_iff ((p ≥ i.lo ∨ p ≤ i.hi) ∧ ¬(i.lo - i.hi = 360))
      (by simp [S1Interval.fastContains, h])
  else
    decidable_of_iff (i.lo ≤ p ∧ p ≤ i.hi) (by simp [S1Interval.fastContains, h])

/-- `S1Interval.contains(other)`: interval containment. -/
def S1Interval.containsI (x y : S1Interval) : Prop :=
  if x.lo > x.hi then
    if y.lo > y.hi then y.lo ≥ x.lo ∧ y.hi ≤ x.hi
    else (y.lo ≥ x.lo ∨ y.hi ≤ x.hi) ∧ ¬(x.lo - x.hi = 360)
  else
    if y.lo > y.hi then x.hi - x.lo = 360 ∨ y.lo - y.hi = 360
    else y.lo ≥ x.lo ∧ y.hi ≤ x.hi

instance (x y : S1Interval) : Decidable (S1Interval.containsI x y) :=
  if hx : x.lo > x.hi then
    if hy : y.lo > y.hi then
      decidable_of_iff (y.lo ≥ x.lo ∧ y.hi ≤ x.hi) (by simp [S1Interval.containsI, hx, hy])
    else
      decidable_of_iff ((y.lo ≥ x.lo ∨ y.hi ≤ x.hi) ∧ ¬(x.lo - x.hi = 360))
        (by simp [S1Interval.containsI, hx, hy])
  else
    if hy : y.lo > y.hi then
      decidable_of_iff (x.hi - x.lo = 360 ∨ y.lo - y.hi = 360)
        (by simp [S1Interval.containsI, hx, hy])
    else
      decidable_of_iff (y.lo ≥ x.lo ∧ y.hi ≤ x.hi) (by simp [S1Interval.containsI, hx, hy])

/-- Distance from `a` to `b` going counterclockwise, in `[0, 360)`. -/
def S1Interval.positiveDistance (a b : ℚ) : ℚ :=
  let d := b - a
  if d ≥ 0 then d else (b + 180) - (a - 180)

/-- `S1Interval.union`, following the s2 branch structure: absorb one
side when possible, return the full circle when the two cover it, and
otherwise extend past the endpoint pair with the smaller gap. -/
def S1Interval.union (x y : S1Interval) : S1Interval :=
  if y.lo - y.hi = 360 then x
  else if S1Interval.fastContains x y.lo then
    if S1Interval.fastContains x y.hi then
      if S1Interval.containsI x y then x else S1Interval.full
    else ⟨x.lo, y.hi⟩
  else if S1Interval.fastContains x y.hi then ⟨y.lo, x.hi⟩
  else if x.lo - x.hi = 360 ∨ S1Interval.fastContains y x.lo then y
  else if S1Interval.positiveDistance y.hi x.lo < S1Interval.positiveDistance x.hi y.lo then
    ⟨y.lo, x.hi⟩
  else ⟨x.lo, y.hi⟩

/-- `s2.LatLngRect`: a latitude interval and a longitude interval. -/
structure LatLngRect where
  lat : R1Interval
  lng : S1Interval
  deriving DecidableEq, Repr

/-- `s2.LatLngRect()`: the empty rectangle sentinel. -/
def LatLngRect.emptyR : LatLngRect := ⟨R1Interval.emptyI, S1Interval.emptyI⟩

/-- `LatLngRect.from_point`. -/
def LatLngRect.fromPoint (p : LatLng) : LatLngRect :=
  ⟨R1Interval.fromPoint p.lat, S1Interval.fromPoint p.lng⟩

/-- `LatLngRect.union`: componentwise. -/
def LatLngRect.union (x y : LatLngRect) : LatLngRect :=
  ⟨x.lat.union y.lat, x.lng.union y.lng⟩

/-- `LatLngRect.contains(latlng)`: the point's latitude lies in the
latitude interval and its longitude (with `-180` folded to `180`) lies in
the longitude interval. -/
def LatLngRect.memP (r : LatLngRect) (p : LatLng) : Prop :=
  (r.lat.lo ≤ p.lat ∧ p.lat ≤ r.lat.hi) ∧
    S1Interval.fastContains r.lng (if p.lng = -180 then 180 else p.lng)

/-- IEEE `remainder(lng, 360)`: the representative of `lng` modulo a full
turn nearest to zero.  (The rounding convention at exact half turns
differs between `round` and round-half-even only on values that
`S1Interval.fromPoint` and `LatLngRect.memP` fold to `180` anyway.) -/
def normalizeLng (lng : ℚ) : ℚ := lng - 360 * round (lng / 360)

/-- `s2.LatLng.normalized()`: clamp latitude, wrap longitude. -/
def LatLng.normalized (p : LatLng) : LatLng :=
  ⟨max (-90) (min 90 p.lat), normalizeLng p.lng⟩

/-- `Track.bbox`: fold the union of the normalized point rectangles over
every point of every polyline, starting from the empty rectangle. -/
def Track.bbox (self : Track) : LatLngRect :=
  self.polylines.foldl
    (fun b line => line.foldl (fun b' p => b'.union (LatLngRect.fromPoint p.normalized)) b)
    LatLngRect.emptyR

/-- The body of the inner loop of `Track.bbox` (one point folded into the
accumulator), named for the bounding-box lemmas. -/
def bboxPointStep (b : LatLngRect) (p : LatLng) : LatLngRect :=
  b.union (LatLngRect.fromPoint p.normalized)

/-- The body of the outer loop of `Track.bbox` (one polyline folded into
the accumulator). -/
def bboxLineStep (b : LatLngRect) (line : List LatLng) : LatLngRect :=
  line.foldl bboxPointStep b

/-- A freshly constructed `Track()` (all `__init__` defaults). -/
def emptyTrack : Track := {}

/-- A localization collaborator that returns the UTC instants unchanged
(used to instantiate the loaders at concrete inputs). -/
def locId : Option DT → Option DT → Option DT × Option DT := fun s e => (s, e)

/-- A fully populated left operand for merge experiments. -/
def trackA : Track :=
  { file_names := ["a.gpx"]
    end_time := some 100
    length := 5
    moving_dict :=
      { distance := some 5, moving_time := some 50, elapsed_time := some 60,
        average_speed := some (some (1 / 10)) }
    polyline_container := some [(1, 2)]
    polyline_str := polylineEncode [(1, 2)] }

/-- A right operand whose moving statistics were never populated. -/
def trackB : Track := { end_time := some 200, length := 7 }

/-- A parser-produced track with fractional-second timestamps, for cache
round-trip experiments. -/
def trackC2 : Track :=
  { start_time := some (3 / 2)
    end_time := some 10
    start_time_local := some (7 / 2)
    end_time_local := some 12
    length := 9
    polylines := [[LatLng.mk 1 2], [LatLng.mk 3 4]] }

/-- A zero-length GPX file (content irrelevant: nothing is parsed). -/
def gpxEmptyInput : GpxInput := { path := "runs/a.gpx", size := 0, parsed := none }

/-- A remote activity with a nonempty stored polyline. -/
def activityDemo : Activity :=
  { run_id := 42, start_date_local := 1000, elapsed_time := 600, distance := 5000,
    summary_polyline := "abc" }

/-- The result of motion detection for the C7 witness. -/
def gpxMD : Gpx := { moving_data := some ⟨6, 2, 3⟩ }

/-- The moving dict `_get_moving_data` builds from `gpxMD`. -/
def mdDemo : MovingDict :=
  { distance := some 6
    moving_time := some 2
    elapsed_time := some (2 + 3)
    average_speed := some (some (if (2 : ℚ) ≠ 0 then 6 / 2 else 0)) }

/-- A FIT position record sitting exactly on the equator. -/
def recordMsgZeroLat : RecordMsg := { position_lat := some 0, position_long := some 30 }

/-- A FIT session whose explicit moving-time field is present but zero. -/
def sessionZeroMoving : SessionMsg :=
  { start_time := 0, total_elapsed_time := 10, total_distance := 5,
    avg_heart_rate := some 120, sport := 1, total_moving_time := some 0,
    total_timer_time := some 100, enhanced_avg_speed := some 3, avg_speed := some 2 }

/-- A fully populated running session. -/
def sessionRunning : SessionMsg :=
  { start_time := 1000000, total_elapsed_time := 60, total_distance := 100,
    avg_heart_rate := some 150, sport := 1, total_moving_time := some 50,
    total_timer_time := some 55, enhanced_avg_speed := some 2, avg_speed := some 1 }

/-- The track state `loadFitSession` produces from `sessionRunning`. -/
def trackSR : Track :=
  { start_time := some (((1000000 : ℤ) : ℚ) / 1000)
    end_time := some ((((1000000 : ℤ) : ℚ) + 60 * 1000) / 1000)
    length := 100
    average_heartrate := some 150
    moving_dict :=
      { distance := some 100, moving_time := some 50, elapsed_time := some 60,
        average_speed := some (some 2) }
    run_id := some 1000000
    type := "running" }

/-- A GPX track carrying an in-file sequence number. -/
def gpxTrackXZ : GpxTrack := { type := some "Run", number := some 12, segments := [] }

/-- A GPX document whose creator is the vendor token. -/
def gpxXZ : Gpx :=
  { creator := some "xingzhe", name := some "morning", tracks := [gpxTrackXZ],
    time_bounds := (some 100, some 200), length_2d := 3, moving_data := some ⟨1, 2, 3⟩ }

/-- The same document with a different creator. -/
def gpxGA : Gpx :=
  { creator := some "garmin", name := some "morning", tracks := [gpxTrackXZ],
    time_bounds := (some 100, some 200), length_2d := 3, moving_data := some ⟨1, 2, 3⟩ }

/-- The track parsed from `gpxXZ`. -/
def trackXZ : Track :=
  { start_time := some 100, end_time := some 200, start_time_local := some 100,
    end_time_local := some 200, length := 3,
    moving_dict :=
      { distance := some 1, moving_time := some 2, elapsed_time := some ((2 : ℚ) + 3),
        average_speed := some (some ((1 : ℚ) / 2)) }
    run_id := some 12, type := "Run", source := "xingzhe", name := "morning" }

/-- The track parsed from `gpxGA`. -/
def trackGA : Track :=
  { start_time := some 100, end_time := some 200, start_time_local := some 100,
    end_time_local := some 200, length := 3,
    moving_dict :=
      { distance := some 1, moving_time := some 2, elapsed_time := some ((2 : ℚ) + 3),
        average_speed := some (some ((1 : ℚ) / 2)) }
    run_id := some (ratToInt ((100 : ℚ) * 1000)), type := "Run", source := "garmin",
    name := "morning" }

/- ------------------------------------------------------------------ -/
/- Theorems.                                                          -/
/- ------------------------------------------------------------------ -/

/-- Building a `LatLng` back from its own projections is the identity. -/
theorem latlng_map_eta (l : List LatLng) : l.map (fun p => LatLng.mk p.lat p.lng) = l := by
  induction l with
  | nil => rfl
  | cons a l ih => simp [ih]

/-- Projecting segments into the cache document and rebuilding them is
the identity on the polylines. -/
theorem cache_segments_roundtrip (ls : List (List LatLng)) :
    (ls.map (fun line => line.map (fun p => CacheLatLng.mk p.lat p.lng))).map
      (fun line => line.map (fun d => LatLng.mk d.lat d.lng)) = ls := by
  induction ls with
  | nil => rfl
  | cons line ls ih => simp [List.map_map, Function.comp_def, latlng_map_eta, ih]

/-- Claim C1, counterexample: merging a `Track` whose moving statistics
are unpopulated into a fully populated one fails, yet the left operand's
`end_time` and `length` do not keep their pre-call values, so a failed
merge is not all-or-nothing. -/
theorem c1_counterexample :
    trackB.moving_dict.distance = none ∧
      (Track.append trackA trackB).end_time ≠ trackA.end_time ∧
      (Track.append trackA trackB).length ≠ trackA.length := by
  refine ⟨rfl, ?_, ?_⟩ <;> simp [Track.append, Track.appendTry, trackA, trackB]

/-- Claim C1 (amended): on a merge that fails because the moving-distance
entry is absent on either side, the left operand is *not* left unmodified:
its `end_time` is unconditionally set to the right operand's and its
`length` is unconditionally increased by the right operand's, while the
moving-statistics entries, coordinate container, encoded path, file-name
list and `special` flag do keep their pre-call values. -/
theorem c1_failed_merge_state (a b : Track)
    (h : a.moving_dict.distance = none ∨ b.moving_dict.distance = none) :
    Track.append a b = { a with end_time := b.end_time, length := a.length + b.length } := by
  cases ha : a.moving_dict.distance with
  | none => simp [Track.append, Track.appendTry, ha]
  | some sd =>
    cases h with
    | inl h => rw [h] at ha; cases ha
    | inr h => simp [Track.append, Track.appendTry, ha, h]

/-- Claim C1 witness: the amended statement evaluated at the concrete
merge pair of the counterexample. -/
theorem c1_failed_merge_state_witness :
    Track.append trackA trackB =
      { trackA with end_time := trackB.end_time, length := trackA.length + trackB.length } :=
  c1_failed_merge_state trackA trackB (Or.inr rfl)

/-- Claim C2: storing a track whose four datetime fields are populated
and loading the resulting cache document reproduces the start/end UTC
instants and local instants to whole-second precision (the cache
timestamp format), and the length and the per-segment coordinate lists
exactly. -/
theorem c2_cache_roundtrip (t t' : Track) (s e sl el : ℚ)
    (hs : t.start_time = some s) (he : t.end_time = some e)
    (hsl : t.start_time_local = some sl) (hel : t.end_time_local = some el) :
    (Track.store_cache t).map (Track.load_cache t') =
      Except.ok
        { t' with
          start_time := some ((⌊s⌋ : ℤ) : ℚ)
          end_time := some ((⌊e⌋ : ℤ) : ℚ)
          start_time_local := some ((⌊sl⌋ : ℤ) : ℚ)
          end_time_local := some ((⌊el⌋ : ℤ) : ℚ)
          length := t.length
          polylines := t.polylines } := by
  simp only [Track.store_cache, hs, he, hsl, hel, Except.map, Track.load_cache]
  rw [cache_segments_roundtrip]

/-- Claim C2 witness: the round trip evaluated at a concrete track with
fractional-second timestamps (the loaded instants are the floors). -/
theorem c2_cache_roundtrip_witness :
    (Track.store_cache trackC2).map (Track.load_cache emptyTrack) =
      Except.ok
        { emptyTrack with
          start_time := some ((⌊(3 / 2 : ℚ)⌋ : ℤ) : ℚ)
          end_time := some ((⌊(10 : ℚ)⌋ : ℤ) : ℚ)
          start_time_local := some ((⌊(7 / 2 : ℚ)⌋ : ℤ) : ℚ)
          end_time_local := some ((⌊(12 : ℚ)⌋ : ℤ) : ℚ)
          length := trackC2.length
          polylines := trackC2.polylines } :=
  c2_cache_roundtrip trackC2 emptyTrack (3 / 2) 10 (7 / 2) 12 rfl rfl rfl rfl

/-- Claim C3, counterexample: on a zero-length GPX file the caller does
not receive the empty-file error as the call's result — `load_gpx`
swallows it and returns normally. -/
theorem c3_counterexample :
    Track.load_gpx locId emptyTrack gpxEmptyInput ≠
      Except.error (PyError.trackLoadError "Empty GPX file") := by
  simp [Track.load_gpx]

/-- Claim C3 (amended): on a zero-length input each of the GPX, TCX and
FIT loaders raises the empty-file `TrackLoadError` before any
format-library parsing is attempted (the result does not depend on the
parsed content at all), but the error is caught at the file boundary and
logged; the caller sees a normal return carrying the warning, not an
error result. -/
theorem c3_empty_file (loc : Option DT → Option DT → Option DT × Option DT)
    (t : Track) (p : String) (g : Option Gpx) (fp : Option (List FitMessage)) :
    Track.load_gpx_inner loc t ⟨p, 0, g⟩ =
        Except.error ({ t with file_names := [basename p] },
          PyError.trackLoadError "Empty GPX file") ∧
      Track.load_tcx_inner t ⟨p, 0⟩ =
        Except.error ({ t with file_names := [basename p] },
          PyError.trackLoadError "Empty TCX file") ∧
      Track.load_fit_inner loc t ⟨p, 0, fp⟩ =
        Except.error ({ t with file_names := [basename p] },
          PyError.trackLoadError "Empty FIT file") ∧
      Track.load_gpx loc t ⟨p, 0, g⟩ =
        Except.ok ({ t with file_names := [basename p] },
          [loadErrMsg "GPX" (basename p), "Empty GPX file"]) ∧
      Track.load_tcx t ⟨p, 0⟩ =
        Except.ok ({ t with file_names := [basename p] },
          [loadErrMsg "TCX" (basename p), "Empty TCX file"]) ∧
      Track.load_fit loc t ⟨p, 0, fp⟩ =
        Except.ok ({ t with file_names := [basename p] },
          [loadErrMsg "FIT" (basename p), "Empty FIT file"]) :=
  ⟨rfl, rfl, rfl, rfl, rfl, rfl⟩

/-- Claim C9: no failure inside a load operation propagates to the
caller — each loader always returns normally — and whenever the inner
block fails the caller-visible result pairs the partially mutated track
with a log whose first line names the offending file. -/
theorem c9_file_boundary (loc : Option DT → Option DT → Option DT × Option DT)
    (t : Track) (gf : GpxInput) (tf : TcxInput) (ff : FitInput) :
    isOkE (Track.load_gpx loc t gf) = true ∧
      isOkE (Track.load_tcx t tf) = true ∧
      isOkE (Track.load_fit loc t ff) = true ∧
      (∀ pt e, Track.load_gpx_inner loc t gf = Except.error (pt, e) →
        Track.load_gpx loc t gf =
          Except.ok (pt, [loadErrMsg "GPX" (basename gf.path), pyErrStr e])) ∧
      (∀ pt e, Track.load_tcx_inner t tf = Except.error (pt, e) →
        Track.load_tcx t tf =
          Except.ok (pt, [loadErrMsg "TCX" (basename tf.path), pyErrStr e])) ∧
      (∀ pt e, Track.load_fit_inner loc t ff = Except.error (pt, e) →
        Track.load_fit loc t ff =
          Except.ok (pt, [loadErrMsg "FIT" (basename ff.path), pyErrStr e])) := by
  refine ⟨rfl, rfl, rfl, ?_, ?_, ?_⟩ <;>
    · intro pt e h
      simp [Track.load_gpx, Track.load_tcx, Track.load_fit, h]

/-- Claim C9 witness: the catch-and-log behaviour evaluated at a concrete
failing input (a zero-length GPX file). -/
theorem c9_file_boundary_witness :
    isOkE (Track.load_gpx locId emptyTrack gpxEmptyInput) = true ∧
      Track.load_gpx locId emptyTrack gpxEmptyInput =
        Except.ok ({ emptyTrack with file_names := [basename gpxEmptyInput.path] },
          [loadErrMsg "GPX" (basename gpxEmptyInput.path), "Empty GPX file"]) :=
  ⟨(c9_file_boundary locId emptyTrack gpxEmptyInput ⟨"b", 0⟩ ⟨"c", 0, none⟩).1,
    (c9_file_boundary locId emptyTrack gpxEmptyInput ⟨"b", 0⟩ ⟨"c", 0, none⟩).2.2.2.1 _ _ rfl⟩

/-- Claim C5 (code bug): with the environment toggle truthy the
`summary_polyline` local is never assigned, so `load_from_db` raises
`NameError` instead of decoding the stored polyline unfiltered; with the
toggle falsy (the default) the stored path is filtered and then decoded
and loading succeeds. -/
theorem c5_toggle_crash :
    Track.load_from_db true (fun s => s) (fun _ => [(1, 2)]) emptyTrack activityDemo =
        Except.error PyError.nameError ∧
      Track.load_from_db false (fun s => s) (fun _ => [(1, 2)]) emptyTrack activityDemo =
        Except.ok
          { emptyTrack with
            file_names := [toString activityDemo.run_id]
            start_time_local := some activityDemo.start_date_local
            end_time := some (activityDemo.start_date_local + activityDemo.elapsed_time)
            length := activityDemo.distance
            polylines := [[LatLng.mk 1 2]]
            run_id := some activityDemo.run_id } :=
  ⟨rfl, rfl⟩

/-- Claim C7: the moving dict built from a motion-detection result has
`distance` the moving distance, `moving_time` the moving time,
`elapsed_time` the sum of moving and stopped time, and `average_speed`
equal to `distance / moving_time` when the moving time is positive and to
`0` when it is zero. -/
theorem c7_moving_statistics (gpx : Gpx) (md : MovingData)
    (h : gpx.moving_data = some md) (d : MovingDict)
    (hd : Track.getMovingData gpx = Except.ok d) :
    d.distance = some md.moving_distance ∧
      d.moving_time = some md.moving_time ∧
      d.elapsed_time = some (md.moving_time + md.stopped_time) ∧
      (0 < md.moving_time →
        d.average_speed = some (some (md.moving_distance / md.moving_time))) ∧
      (md.moving_time = 0 → d.average_speed = some (some 0)) := by
  simp only [Track.getMovingData, h] at hd
  injection hd with hd
  subst hd
  refine ⟨rfl, rfl, rfl, ?_, ?_⟩
  · intro hpos
    simp [ne_of_gt hpos]
  · intro h0
    simp [h0]

/-- Claim C7 witness: the invariants evaluated at a concrete
motion-detection result with positive moving time. -/
theorem c7_moving_statistics_witness :
    mdDemo.elapsed_time = some ((2 : ℚ) + 3) ∧
      mdDemo.average_speed = some (some ((6 : ℚ) / 2)) :=
  ⟨(c7_moving_statistics gpxMD ⟨6, 2, 3⟩ rfl mdDemo rfl).2.2.1,
    (c7_moving_statistics gpxMD ⟨6, 2, 3⟩ rfl mdDemo rfl).2.2.2.1 (by norm_num)⟩

/-- Claim C8, counterexample: a position record whose latitude field is
present but equal to `0` (the equator) is skipped even though both
coordinates are present, because the code tests Python truthiness, not
presence. -/
theorem c8_counterexample :
    recordMsgZeroLat.position_lat = some 0 ∧
      recordMsgZeroLat.position_long = some 30 ∧
      fitRecordStep [] emptyTrack recordMsgZeroLat = ([], emptyTrack) := by
  refine ⟨rfl, rfl, ?_⟩
  simp [fitRecordStep, truthyQ, recordMsgZeroLat]

/-- Claim C8 (amended): a FIT position record is appended to the current
segment exactly when both coordinate fields are present *and* nonzero; a
record with either coordinate absent — or present but zero — is skipped
without error, leaving the state unchanged. -/
theorem c8_position_record (pl : List LatLng) (t : Track) (m : RecordMsg) :
    (∀ a b, m.position_lat = some a → a ≠ 0 → m.position_long = some b → b ≠ 0 →
        fitRecordStep pl t m =
          (pl ++ [LatLng.mk a b], { t with polyline_container := some ((t.polyline_container.getD []) ++ [(a, b)]) })) ∧
      ((m.position_lat = none ∨ m.position_lat = some 0 ∨
          m.position_long = none ∨ m.position_long = some 0) →
        fitRecordStep pl t m = (pl, t)) := by
  constructor
  · intro a b ha ha0 hb hb0
    simp [fitRecordStep, truthyQ, ha, hb, ha0, hb0]
  · intro h
    rcases h with h | h | h | h <;> simp [fitRecordStep, truthyQ, h]

/-- Claim C8 witness: a record with both coordinates present and nonzero
is appended. -/
theorem c8_position_record_witness :
    fitRecordStep [] emptyTrack ⟨some 10, some 20⟩ =
      ([LatLng.mk 10 20], { emptyTrack with polyline_container := some [(10, 20)] }) := by
  have h := (c8_position_record [] emptyTrack ⟨some 10, some 20⟩).1 10 20 rfl (by norm_num) rfl (by norm_num)
  simpa [emptyTrack] using h

/-- Claim C6, counterexample: for a session message whose
`total_moving_time` field is present with value `0`, the parser does not
use that field — it falls back to `total_timer_time` (Python truthiness
conflates a present zero with absence), so "falls back only when the
former is absent" fails. -/
theorem c6_counterexample :
    sessionZeroMoving.total_moving_time = some 0 ∧
      (Track.loadFitSession emptyTrack sessionZeroMoving).map
          (fun t => t.moving_dict.moving_time) =
        Except.ok (some 100) ∧
      some (100 : ℚ) ≠ some (0 : ℚ) := by
  refine ⟨rfl, ?_, by norm_num⟩
  simp [Track.loadFitSession, sessionZeroMoving, sportTypeName, truthyQ, Except.map]

/-- Claim C6 (amended): for a successfully processed FIT session message,
`start_time` is the millisecond epoch offset as a UTC instant, the end
instant exceeds the start instant by exactly the total elapsed time,
`length` is the total distance, the average heart rate is `None` exactly
when the field is `0` or absent, `moving_time` takes the explicit
moving-time field when it is present and nonzero and otherwise falls back
to the timer-time field, and `average_speed` takes the enhanced field
when it is present and nonzero and otherwise falls back to the standard
field. -/
theorem c6_session_fields (t : Track) (m : SessionMsg) (t' : Track)
    (h : Track.loadFitSession t m = Except.ok t') :
    t'.start_time = some ((m.start_time : ℚ) / 1000) ∧
      (∀ s e, t'.start_time = some s → t'.end_time = some e →
        e - s = m.total_elapsed_time) ∧
      t'.length = m.total_distance ∧
      (t'.average_heartrate = none ↔
        (m.avg_heart_rate = none ∨ m.avg_heart_rate = some 0)) ∧
      t'.moving_dict.distance = some m.total_distance ∧
      t'.moving_dict.elapsed_time = some m.total_elapsed_time ∧
      (∀ v, m.total_moving_time = some v → v ≠ 0 →
        t'.moving_dict.moving_time = some v) ∧
      ((m.total_moving_time = none ∨ m.total_moving_time = some 0) →
        t'.moving_dict.moving_time = m.total_timer_time) ∧
      (∀ v, m.enhanced_avg_speed = some v → v ≠ 0 →
        t'.moving_dict.average_speed = some (some v)) ∧
      ((m.enhanced_avg_speed = none ∨ m.enhanced_avg_speed = some 0) →
        t'.moving_dict.average_speed = some m.avg_speed) := by
  unfold Track.loadFitSession at h
  rcases hty : sportTypeName m.sport with e | ty
  · rw [hty] at h
    exact absurd h (by simp)
  · rw [hty] at h
    rcases hmt : (if truthyQ m.total_moving_time then m.total_moving_time
        else m.total_timer_time) with _ | mt
    · rw [hmt] at h
      exact absurd h (by simp)
    · rw [hmt] at h
      simp only [Except.ok.injEq] at h
      subst h
      refine ⟨rfl, ?_, rfl, ?_, rfl, rfl, ?_, ?_, ?_, ?_⟩
      · intro s e hs he
        simp only [Option.some.injEq] at hs he
        subst hs; subst he
        ring
      · rcases hhr : m.avg_heart_rate with _ | hv
        · simp [hhr]
        · by_cases hv0 : hv = 0
          · subst hv0; simp [hhr]
          · simp [hhr, hv0]
      · intro v hv hv0
        rw [hv] at hmt
        rw [show truthyQ (some v) = true by simp [truthyQ, hv0]] at hmt
        simpa using hmt.symm
      · intro hcase
        have hfalse : truthyQ m.total_moving_time = false := by
          rcases hcase with hc | hc <;> simp [truthyQ, hc]
        rw [hfalse] at hmt
        simp at hmt
        exact hmt.symm
      · intro v hv hv0
        simp [hv, truthyQ, hv0]
      · intro hcase
        rcases hcase with hc | hc <;> simp [truthyQ, hc]

/-- Claim C6 witness: the amended session contract evaluated at
`sessionRunning` (explicit moving time `50` wins over timer time `55`,
the enhanced speed `2` wins over the standard `1`, and end minus start is
the elapsed time). -/
theorem c6_session_fields_witness :
    Track.loadFitSession emptyTrack sessionRunning = Except.ok trackSR ∧
      trackSR.moving_dict.moving_time = some 50 ∧
      trackSR.moving_dict.average_speed = some (some 2) ∧
      ((((1000000 : ℤ) : ℚ) + 60 * 1000) / 1000 - ((1000000 : ℤ) : ℚ) / 1000 =
        sessionRunning.total_elapsed_time) := by
  have h : Track.loadFitSession emptyTrack sessionRunning = Except.ok trackSR := rfl
  exact ⟨h,
    (c6_session_fields emptyTrack sessionRunning trackSR h).2.2.2.2.2.2.1 50 rfl (by norm_num),
    (c6_session_fields emptyTrack sessionRunning trackSR h).2.2.2.2.2.2.2.2.1 2 rfl (by norm_num),
    (c6_session_fields emptyTrack sessionRunning trackSR h).2.1 _ _ rfl rfl⟩

/-- Claim C4: for a successfully parsed GPX document whose resolved
source is the vendor token "xingzhe", the local start instant is forced
equal to the UTC start instant and the numeric identifier is the in-file
track sequence number; for any other resolved source the identifier is
the millisecond start timestamp. -/
theorem c4_xingzhe (loc : Option DT → Option DT → Option DT × Option DT)
    (t : Track) (gpx : Gpx) (t' : Track)
    (h : Track.loadGpxData loc t gpx = Except.ok t') :
    (t'.source = "xingzhe" →
        t'.start_time_local = t'.start_time ∧
          ∀ t0 rest, gpx.tracks = t0 :: rest → t'.run_id = t0.number) ∧
      (t'.source ≠ "xingzhe" →
        ∀ s, gpx.time_bounds.1 = some s → t'.run_id = some (ratToInt (s * 1000))) := by
  unfold Track.loadGpxData at h
  rcases htb1 : gpx.time_bounds.1 with _ | s
  · simp only [htb1] at h
    exact Except.noConfusion h
  · simp only [htb1] at h
    rcases htb2 : gpx.time_bounds.2 with _ | e
    · simp only [htb2] at h
      exact Except.noConfusion h
    · simp only [htb2] at h
      by_cases hlen : gpx.length_2d = 0
      · simp only [hlen, if_true, eq_self_iff_true] at h
        exact Except.noConfusion h
      · rw [if_neg hlen] at h
        rcases htr : gpx.tracks with _ | ⟨t0, rest⟩
        · simp only [htr] at h
          exact Except.noConfusion h
        · simp only [htr] at h
          rcases hmd : Track.getMovingData gpx with e' | md
          · simp only [hmd] at h
            exact Except.noConfusion h
          · simp only [hmd, Except.ok.injEq] at h
            subst h
            constructor
            · intro hsrc
              constructor
              · simp only at hsrc
                simp [hsrc]
              · intro t0' rest' htr'
                injection htr' with h1 h2
                subst h1
                simp only at hsrc
                simp [hsrc]
            · intro hsrc s' hs'
              injection hs' with hs'
              subst hs'
              simp only at hsrc
              simp [hsrc]

/-- Claim C4 witness: the vendor special case evaluated at a concrete
xingzhe document (local time forced to UTC start, identifier taken from
the in-file number) and at a garmin document (identifier derived from the
millisecond timestamp). -/
theorem c4_xingzhe_witness :
    Track.loadGpxData locId emptyTrack gpxXZ = Except.ok trackXZ ∧
      trackXZ.start_time_local = trackXZ.start_time ∧
      trackXZ.run_id = some 12 ∧
      Track.loadGpxData locId emptyTrack gpxGA = Except.ok trackGA ∧
      trackGA.run_id = some (ratToInt ((100 : ℚ) * 1000)) := by
  have h1 : Track.loadGpxData locId emptyTrack gpxXZ = Except.ok trackXZ := rfl
  have h2 : Track.loadGpxData locId emptyTrack gpxGA = Except.ok trackGA := rfl
  refine ⟨h1, ?_, ?_, h2, ?_⟩
  · exact ((c4_xingzhe locId emptyTrack gpxXZ trackXZ h1).1 rfl).1
  · exact ((c4_xingzhe locId emptyTrack gpxXZ trackXZ h1).1 rfl).2 gpxTrackXZ [] rfl
  · exact (c4_xingzhe locId emptyTrack gpxGA trackGA h2).2 (by decide) 100 rfl

/-- The wrapped longitude lands in `[-180, 180)`. -/
theorem normalizeLng_range (lng : ℚ) :
    -180 ≤ normalizeLng lng ∧ normalizeLng lng < 180 := by
  unfold normalizeLng
  rw [round_eq]
  have h1 := Int.floor_le (lng / 360 + 1 / 2)
  have h2 := Int.lt_floor_add_one (lng / 360 + 1 / 2)
  constructor <;> nlinarith

/-- Latitude-interval step: the union with a point interval contains the
point and everything the interval contained. -/
theorem r1_union_point (i : R1Interval) (p : ℚ) :
    (R1Interval.union i ⟨p, p⟩).lo ≤ p ∧ p ≤ (R1Interval.union i ⟨p, p⟩).hi ∧
      ∀ x, i.lo ≤ x → x ≤ i.hi →
        (R1Interval.union i ⟨p, p⟩).lo ≤ x ∧ x ≤ (R1Interval.union i ⟨p, p⟩).hi := by
  unfold R1Interval.union
  simp only
  split_ifs with h1 h2
  · exact ⟨le_refl p, le_refl p,
      fun x hx1 hx2 => absurd (le_trans hx1 hx2) (not_le.mpr h1)⟩
  · exact absurd h2 (lt_irrefl p)
  · refine ⟨min_le_right _ _, le_max_right _ _, fun x hx1 hx2 => ?_⟩
    exact ⟨le_trans (min_le_left _ _) hx1, le_trans hx2 (le_max_left _ _)⟩

/-- Longitude-interval step: for a point in the folded range `(-180, 180]`
and an accumulator that is the empty sentinel, the full circle, or an
interval with endpoints in `(-180, 180]`, the s2 union with the point
interval keeps that shape, contains the point, and contains everything
the accumulator contained. -/
theorem s1_union_point (i : S1Interval) (q : ℚ) (hq1 : -180 < q) (hq2 : q ≤ 180)
    (hI : i = S1Interval.emptyI ∨ i = S1Interval.full ∨
      (-180 < i.lo ∧ i.lo ≤ 180 ∧ -180 < i.hi ∧ i.hi ≤ 180)) :
    (S1Interval.union i ⟨q, q⟩ = S1Interval.emptyI ∨
        S1Interval.union i ⟨q, q⟩ = S1Interval.full ∨
        (-180 < (S1Interval.union i ⟨q, q⟩).lo ∧ (S1Interval.union i ⟨q, q⟩).lo ≤ 180 ∧
          -180 < (S1Interval.union i ⟨q, q⟩).hi ∧ (S1Interval.union i ⟨q, q⟩).hi ≤ 180)) ∧
      S1Interval.fastContains (S1Interval.union i ⟨q, q⟩) q ∧
      ∀ x, S1Interval.fastContains i x →
        S1Interval.fastContains (S1Interval.union i ⟨q, q⟩) x := by
  have hyne : ¬((q : ℚ) - q = 360) := by norm_num
  have hqq : ¬(q > q) := lt_irrefl q
  by_cases hc1 : S1Interval.fastContains i q
  · -- the point is already inside: the union collapses to `i`
    have hcont : S1Interval.containsI i ⟨q, q⟩ := by
      by_cases h1 : i.lo > i.hi
      · unfold S1Interval.fastContains at hc1
        rw [if_pos h1] at hc1
        unfold S1Interval.containsI
        rw [if_pos h1, if_neg hqq]
        exact hc1
      · unfold S1Interval.fastContains at hc1
        rw [if_neg h1] at hc1
        unfold S1Interval.containsI
        rw [if_neg h1, if_neg hqq]
        exact hc1
    have hu : S1Interval.union i ⟨q, q⟩ = i := by
      unfold S1Interval.union
      rw [if_neg hyne, if_pos hc1, if_pos hc1, if_pos hcont]
    rw [hu]
    exact ⟨hI, hc1, fun x hx => hx⟩
  · -- the point is outside `i`
    have hInotfull : ¬(i = S1Interval.full) := by
      intro hfull
      apply hc1
      rw [hfull]
      unfold S1Interval.fastContains S1Interval.full
      rw [if_neg (by norm_num : ¬((-180 : ℚ) > 180))]
      exact ⟨le_of_lt hq1, hq2⟩
    rcases hI with hE | hF | hR
    · -- empty accumulator: the union is the point interval
      have hu : S1Interval.union i ⟨q, q⟩ = ⟨q, q⟩ := by
        unfold S1Interval.union
        rw [if_neg hyne, if_neg hc1, if_neg hc1,
          if_pos (show i.lo - i.hi = 360 ∨ S1Interval.fastContains ⟨q, q⟩ i.lo from
            Or.inl (by rw [hE]; norm_num [S1Interval.emptyI]))]
      rw [hu]
      refine ⟨Or.inr (Or.inr ⟨hq1, hq2, hq1, hq2⟩), ?_, ?_⟩
      · unfold S1Interval.fastContains
        rw [if_neg hqq]
        exact ⟨le_refl q, le_refl q⟩
      · intro x hx
        rw [hE] at hx
        unfold S1Interval.fastContains S1Interval.emptyI at hx
        rw [if_pos (by norm_num : (180 : ℚ) > -180)] at hx
        exact absurd (by norm_num : (180 : ℚ) - -180 = 360) hx.2
    · exact absurd hF hInotfull
    · -- endpoints in range: the union extends one side to the point
      obtain ⟨hlo1, hlo2, hhi1, hhi2⟩ := hR
      have hne360 : ¬(i.lo - i.hi = 360) := by intro h360; linarith
      have hqlo' : ¬(S1Interval.fastContains ⟨q, q⟩ i.lo) := by
        intro hmem
        unfold S1Interval.fastContains at hmem
        rw [if_neg hqq] at hmem
        have hloq : i.lo = q := le_antisymm hmem.2 hmem.1
        apply hc1
        unfold S1Interval.fastContains
        split_ifs with hinv
        · exact ⟨Or.inl (le_of_eq hloq), hne360⟩
        · push_neg at hinv
          exact ⟨le_of_eq hloq, le_trans (le_of_eq hloq.symm) hinv⟩
      have hu : S1Interval.union i ⟨q, q⟩ =
          (if S1Interval.positiveDistance q i.lo < S1Interval.positiveDistance i.hi q
            then ⟨q, i.hi⟩ else ⟨i.lo, q⟩) := by
        unfold S1Interval.union
        rw [if_neg hyne, if_neg hc1, if_neg hc1, if_neg (not_or.mpr ⟨hne360, hqlo'⟩)]
      rw [hu]
      unfold S1Interval.fastContains at hc1
      split_ifs with hd
      · -- union is ⟨q, i.hi⟩
        refine ⟨Or.inr (Or.inr ⟨hq1, hq2, hhi1, hhi2⟩), ?_, ?_⟩
        · unfold S1Interval.fastContains
          split_ifs with hinv
          · exact ⟨Or.inl (le_refl q), by intro h360; linarith⟩
          · push_neg at hinv
            exact ⟨le_refl q, hinv⟩
        · intro x hx
          unfold S1Interval.fastContains at hx ⊢
          by_cases hinvI : i.lo > i.hi
          · rw [if_pos hinvI] at hx
            have hc1' : (q ≥ i.lo ∨ q ≤ i.hi) → i.lo - i.hi = 360 := by
              rw [if_pos hinvI] at hc1
              intro hor
              by_contra hb
              exact hc1 ⟨hor, hb⟩
            have hqs : q < i.lo ∧ i.hi < q := by
              rcases lt_or_ge q i.lo with h | h
              · rcases lt_or_le i.hi q with h' | h'
                · exact ⟨h, h'⟩
                · exact absurd (hc1' (Or.inr h')) hne360
              · exact absurd (hc1' (Or.inl h)) hne360
            split_ifs with hinvU
            · refine ⟨?_, by intro h360; linarith⟩
              rcases hx.1 with hx1 | hx1
              · exact Or.inl (by linarith [hqs.1])
              · exact Or.inr hx1
            · exact absurd (show q > i.hi from hqs.2) hinvU
          · rw [if_neg hinvI] at hx
            push_neg at hinvI
            have hc1' : i.lo ≤ q → i.hi < q := by
              rw [if_neg (not_lt.mpr hinvI)] at hc1
              intro hle
              by_contra hb
              exact hc1 ⟨hle, not_lt.mp hb⟩
            split_ifs with hinvU
            · refine ⟨Or.inr hx.2, by intro h360; linarith⟩
            · push_neg at hinvU
              rcases lt_or_ge q i.lo with h | h
              · exact ⟨by linarith [hx.1], hx.2⟩
              · exact absurd (hc1' h) (not_lt.mpr hinvU)
      · -- union is ⟨i.lo, q⟩
        refine ⟨Or.inr (Or.inr ⟨hlo1, hlo2, hq1, hq2⟩), ?_, ?_⟩
        · unfold S1Interval.fastContains
          split_ifs with hinv
          · exact ⟨Or.inr (le_refl q), by intro h360; linarith⟩
          · push_neg at hinv
            exact ⟨hinv, le_refl q⟩
        · intro x hx
          unfold S1Interval.fastContains at hx ⊢
          by_cases hinvI : i.lo > i.hi
          · rw [if_pos hinvI] at hx
            have hc1' : (q ≥ i.lo ∨ q ≤ i.hi) → i.lo - i.hi = 360 := by
              rw [if_pos hinvI] at hc1
              intro hor
              by_contra hb
              exact hc1 ⟨hor, hb⟩
            have hqs : q < i.lo ∧ i.hi < q := by
              rcases lt_or_ge q i.lo with h | h
              · rcases lt_or_le i.hi q with h' | h'
                · exact ⟨h, h'⟩
                · exact absurd (hc1' (Or.inr h')) hne360
              · exact absurd (hc1' (Or.inl h)) hne360
            split_ifs with hinvU
            · refine ⟨?_, by intro h360; linarith⟩
              rcases hx.1 with hx1 | hx1
              · exact Or.inl hx1
              · exact Or.inr (by linarith [hqs.2])
            · exact absurd (show i.lo > q from hqs.1) hinvU
          · rw [if_neg hinvI] at hx
            push_neg at hinvI
            have hc1' : i.lo ≤ q → i.hi < q := by
              rw [if_neg (not_lt.mpr hinvI)] at hc1
              intro hle
              by_contra hb
              exact hc1 ⟨hle, not_lt.mp hb⟩
            split_ifs with hinvU
            · refine ⟨Or.inl hx.1, by intro h360; linarith⟩
            · push_neg at hinvU
              have hq' : i.hi < q := hc1' hinvU
              exact ⟨hx.1, by linarith [hx.2]⟩

/-- Rectangle step: the union with a normalized point rectangle keeps
the longitude-interval shape, contains the point, and contains everything
the rectangle contained. -/
theorem rect_union_point (r : LatLngRect) (p : LatLng)
    (hI : r.lng = S1Interval.emptyI ∨ r.lng = S1Interval.full ∨
      (-180 < r.lng.lo ∧ r.lng.lo ≤ 180 ∧ -180 < r.lng.hi ∧ r.lng.hi ≤ 180)) :
    ((LatLngRect.union r (LatLngRect.fromPoint p.normalized)).lng = S1Interval.emptyI ∨
        (LatLngRect.union r (LatLngRect.fromPoint p.normalized)).lng = S1Interval.full ∨
        (-180 < (LatLngRect.union r (LatLngRect.fromPoint p.normalized)).lng.lo ∧
          (LatLngRect.union r (LatLngRect.fromPoint p.normalized)).lng.lo ≤ 180 ∧
          -180 < (LatLngRect.union r (LatLngRect.fromPoint p.normalized)).lng.hi ∧
          (LatLngRect.union r (LatLngRect.fromPoint p.normalized)).lng.hi ≤ 180)) ∧
      LatLngRect.memP (LatLngRect.union r (LatLngRect.fromPoint p.normalized)) p.normalized ∧
      ∀ x, LatLngRect.memP r x →
        LatLngRect.memP (LatLngRect.union r (LatLngRect.fromPoint p.normalized)) x := by
  have hrange := normalizeLng_range p.lng
  have hq1 : -180 < (if normalizeLng p.lng = -180 then 180 else normalizeLng p.lng : ℚ) := by
    split_ifs with h
    · norm_num
    · rcases lt_or_eq_of_le hrange.1 with h' | h'
      · exact h'
      · exact absurd h'.symm h
  have hq2 : (if normalizeLng p.lng = -180 then 180 else normalizeLng p.lng : ℚ) ≤ 180 := by
    split_ifs with h
    · norm_num
    · linarith [hrange.2]
  have hlngeq : (LatLngRect.union r (LatLngRect.fromPoint p.normalized)).lng =
      S1Interval.union r.lng
        ⟨if normalizeLng p.lng = -180 then 180 else normalizeLng p.lng,
          if normalizeLng p.lng = -180 then 180 else normalizeLng p.lng⟩ := rfl
  have hlateq : (LatLngRect.union r (LatLngRect.fromPoint p.normalized)).lat =
      R1Interval.union r.lat ⟨p.normalized.lat, p.normalized.lat⟩ := rfl
  have hS := s1_union_point r.lng _ hq1 hq2 hI
  have hR := r1_union_point r.lat p.normalized.lat
  refine ⟨?_, ?_, ?_⟩
  · rw [hlngeq]
    exact hS.1
  · unfold LatLngRect.memP
    rw [hlngeq, hlateq]
    exact ⟨⟨hR.1, hR.2.1⟩, hS.2.1⟩
  · intro x hx
    unfold LatLngRect.memP at hx ⊢
    rw [hlngeq, hlateq]
    exact ⟨hR.2.2 x.lat hx.1.1 hx.1.2, hS.2.2 _ hx.2⟩

/-- `Track.bbox` is the fold of the named steps. -/
theorem bbox_eq_fold (t : Track) :
    Track.bbox t = t.polylines.foldl bboxLineStep LatLngRect.emptyR := rfl

/-- Folding the point step over one polyline keeps the longitude shape,
keeps everything already contained, and absorbs each point. -/
theorem foldl_points (line : List LatLng) (b : LatLngRect)
    (hI : b.lng = S1Interval.emptyI ∨ b.lng = S1Interval.full ∨
      (-180 < b.lng.lo ∧ b.lng.lo ≤ 180 ∧ -180 < b.lng.hi ∧ b.lng.hi ≤ 180)) :
    ((line.foldl bboxPointStep b).lng = S1Interval.emptyI ∨
        (line.foldl bboxPointStep b).lng = S1Interval.full ∨
        (-180 < (line.foldl bboxPointStep b).lng.lo ∧
          (line.foldl bboxPointStep b).lng.lo ≤ 180 ∧
          -180 < (line.foldl bboxPointStep b).lng.hi ∧
          (line.foldl bboxPointStep b).lng.hi ≤ 180)) ∧
      (∀ x, LatLngRect.memP b x → LatLngRect.memP (line.foldl bboxPointStep b) x) ∧
      ∀ p ∈ line, LatLngRect.memP (line.foldl bboxPointStep b) p.normalized := by
  induction line generalizing b with
  | nil => exact ⟨hI, fun x hx => hx, by simp⟩
  | cons p rest ih =>
    have hstep := rect_union_point b p hI
    have ihr := ih (bboxPointStep b p) hstep.1
    rw [List.foldl_cons]
    refine ⟨ihr.1, ?_, ?_⟩
    · intro x hx
      exact ihr.2.1 x (hstep.2.2 x hx)
    · intro p' hp'
      rcases List.mem_cons.mp hp' with h | h
      · subst h
        exact ihr.2.1 _ hstep.2.1
      · exact ihr.2.2 p' h

/-- Folding the line step over all polylines keeps the longitude shape,
keeps everything already contained, and absorbs every point of every
line. -/
theorem foldl_lines (ls : List (List LatLng)) (b : LatLngRect)
    (hI : b.lng = S1Interval.emptyI ∨ b.lng = S1Interval.full ∨
      (-180 < b.lng.lo ∧ b.lng.lo ≤ 180 ∧ -180 < b.lng.hi ∧ b.lng.hi ≤ 180)) :
    ((ls.foldl bboxLineStep b).lng = S1Interval.emptyI ∨
        (ls.foldl bboxLineStep b).lng = S1Interval.full ∨
        (-180 < (ls.foldl bboxLineStep b).lng.lo ∧
          (ls.foldl bboxLineStep b).lng.lo ≤ 180 ∧
          -180 < (ls.foldl bboxLineStep b).lng.hi ∧
          (ls.foldl bboxLineStep b).lng.hi ≤ 180)) ∧
      (∀ x, LatLngRect.memP b x → LatLngRect.memP (ls.foldl bboxLineStep b) x) ∧
      ∀ l ∈ ls, ∀ p ∈ l, LatLngRect.memP (ls.foldl bboxLineStep b) p.normalized := by
  induction ls generalizing b with
  | nil => exact ⟨hI, fun x hx => hx, by simp⟩
  | cons line rest ih =>
    have hline := foldl_points line b hI
    have ihr := ih (bboxLineStep b line) hline.1
    rw [List.foldl_cons]
    refine ⟨ihr.1, ?_, ?_⟩
    · intro x hx
      exact ihr.2.1 x (hline.2.1 x hx)
    · intro l hl p hp
      rcases List.mem_cons.mp hl with h | h
      · subst h
        exact ihr.2.1 _ (hline.2.2 p hp)
      · exact ihr.2.2 l h p hp

/-- Folding over lines that are all empty returns the accumulator. -/
theorem foldl_lines_empty (ls : List (List LatLng)) (b : LatLngRect)
    (h : ∀ l ∈ ls, l = []) :
    ls.foldl bboxLineStep b = b := by
  induction ls generalizing b with
  | nil => rfl
  | cons line rest ih =>
    have hline : line = [] := h line (List.mem_cons_self line rest)
    rw [List.foldl_cons]
    rw [show bboxLineStep b line = b by rw [hline]; rfl]
    exact ih b fun l hl => h l (List.mem_cons_of_mem _ hl)

/-- Claim C10: `bbox` never fails; on a track all of whose segments are
empty (in particular a track with no segments) it returns the designated
empty-rectangle sentinel, which is distinct from the degenerate rectangle
anchored at (0, 0); and it contains the normalized image of every point
of every segment, i.e. it bounds the union of the per-point boxes. -/
theorem c10_bbox (t : Track) :
    ((∀ l ∈ t.polylines, l = []) → Track.bbox t = LatLngRect.emptyR) ∧
      LatLngRect.emptyR ≠ LatLngRect.fromPoint ⟨0, 0⟩ ∧
      ∀ l ∈ t.polylines, ∀ p ∈ l, LatLngRect.memP (Track.bbox t) p.normalized := by
  refine ⟨?_, ?_, ?_⟩
  · intro h
    rw [bbox_eq_fold]
    exact foldl_lines_empty t.polylines LatLngRect.emptyR h
  · intro h
    have h' := congrArg (fun r => r.lat.lo) h
    norm_num [LatLngRect.emptyR, LatLngRect.fromPoint, R1Interval.emptyI,
      R1Interval.fromPoint] at h'
  · rw [bbox_eq_fold]
    exact (foldl_lines t.polylines LatLngRect.emptyR (Or.inl rfl)).2.2

/-- Claim C10 witness: the empty sentinel on a track with two empty
segments, and point containment on a one-point track. -/
theorem c10_bbox_witness :
    Track.bbox { polylines := [[], []] } = LatLngRect.emptyR ∧
      LatLngRect.memP (Track.bbox { polylines := [[LatLng.mk 10 20]] })
        (LatLng.normalized ⟨10, 20⟩) := by
  constructor
  · exact (c10_bbox { polylines := [[], []] }).1 (by simp)
  · exact (c10_bbox { polylines := [[LatLng.mk 10 20]] }).2.2 [LatLng.mk 10 20]
      (by simp) (LatLng.mk 10 20) (by simp)

end RunPage
